import Mathlib

/-!
Shallow embedding of `proxy-manager.py`, a control plane for a single
nginx reverse-proxy container.

The persisted registry document (`Model`), the pure registry mutators
(`add_container`, `remove_container`, `switch_target`, `stop_port`) and the
pure config generator (`generate_nginx_config`) are translated directly from
the source.  The docker side effects are modelled by an explicit runtime
state (`Runtime`: which networks, containers and images exist) plus a trace
of mutation events (`Event`); each lifecycle operation is a function from
the persisted `Model` and the current `Runtime` to a `StepResult` carrying
the boolean result of the python function, the persisted model after the
call, the new runtime state and the list of side effects performed.
The success of `client.images.build` is external input, passed in as the
`build_ok` parameter.
-/

def DEFAULT_PORT : Nat := 8000

/-- A container entry of the registry: `{"name": ..., "label"?, "port"?, "network"?}`. -/
structure ContainerEntry where
  name : String
  label : Option String
  port : Option Nat
  network : Option String
deriving Repr, DecidableEq

/-- A route of the registry: `{"host_port": ..., "target": ...}`. -/
structure Route where
  host_port : Nat
  target : String
deriving Repr, DecidableEq

/-- The persisted registry document. -/
structure Model where
  containers : List ContainerEntry
  routes : List Route
  proxy_name : String
  network : String
deriving Repr, DecidableEq

/-- `DEFAULT_CONFIG` from the source. -/
def DEFAULT_CONFIG : Model :=
  { containers := [], routes := [], proxy_name := "proxy-manager", network := "proxy-net" }

def get_proxy_name (config : Model) : String :=
  config.proxy_name

def get_proxy_image (config : Model) : String :=
  get_proxy_name config ++ ":latest"

/-- `get_internal_port`: python `target_container.get("port") or DEFAULT_PORT`,
so a configured port of `0` (falsy) also yields the default. -/
def get_internal_port : Option ContainerEntry → Nat
  | some target_container =>
    match target_container.port with
    | some p => if p = 0 then DEFAULT_PORT else p
    | none => DEFAULT_PORT
  | none => DEFAULT_PORT

def get_all_host_ports (config : Model) : List Nat :=
  if config.routes.isEmpty then [DEFAULT_PORT]
  else config.routes.map Route.host_port

def get_network_name (config : Model) : String :=
  config.network

/-- `find_container`: first entry whose name or label equals the identifier. -/
def find_container (config : Model) (identifier : String) : Option ContainerEntry :=
  config.containers.find? (fun c => c.name == identifier || c.label == some identifier)

/-- `find_route`: first route with the given host port. -/
def find_route (config : Model) (host_port : Nat) : Option Route :=
  config.routes.find? (fun r => r.host_port == host_port)

/-- The docker-visible state: which networks, containers (by name) and
images (tag paired with the nginx config baked into the image) exist. -/
structure Runtime where
  networks : List String
  containers : List String
  images : List (String × String)
deriving Repr, DecidableEq

/-- A runtime mutation performed by an operation, in order. -/
inductive Event where
  | createNetwork (name : String)
  | buildImage (tag : String)
  | runContainer (name : String)
  | connectNetwork (name : String)
  | stopContainer (name : String)
  | removeContainer (name : String)
  | saveConfig (config : Model)
  | settle
deriving Repr, DecidableEq

/-- Result of one operation: python return value, persisted model,
new runtime state, and side effects performed. -/
structure StepResult where
  ok : Bool
  config : Model
  rt : Runtime
  events : List Event
deriving Repr, DecidableEq

/-- `ensure_network`: create the network iff it does not exist yet. -/
def ensure_network (network_name : String) (rt : Runtime) : Runtime × List Event :=
  if network_name ∈ rt.networks then (rt, [])
  else ({ rt with networks := rt.networks ++ [network_name] },
        [Event.createNetwork network_name])

/-- The `for network in networks: ensure_network(network)` loop of `start_proxy`. -/
def ensure_networks (names : List String) (rt : Runtime) : Runtime × List Event :=
  match names with
  | [] => (rt, [])
  | n :: rest =>
    let p := ensure_network n rt
    let q := ensure_networks rest p.1
    (q.1, p.2 ++ q.2)

/-- The network set assembled by `start_proxy`: the default network plus every
truthy `network` field of a container entry, deduplicated (a python `set`). -/
def proxy_networks (config : Model) : List String :=
  (get_network_name config ::
    config.containers.filterMap (fun c =>
      match c.network with
      | some n => if n == "" then none else some n
      | none => none)).dedup

/-- One nginx `server` block of `generate_nginx_config`, verbatim. -/
def server_block (host_port : Nat) (target : String) (internal_port : Nat) : String :=
  "    server \x7b\n" ++
  "        listen " ++ toString host_port ++ ";\n" ++
  "\n" ++
  "        set $backend_addr " ++ target ++ ":" ++ toString internal_port ++ ";\n" ++
  "        location / \x7b\n" ++
  "            proxy_pass http://$backend_addr;\n" ++
  "            proxy_set_header Host $host;\n" ++
  "            proxy_set_header X-Real-IP $remote_addr;\n" ++
  "            proxy_set_header X-Forwarded-For $proxy_add_x_forwarded_for;\n" ++
  "            resolver 127.0.0.11 valid=30s;\n" ++
  "            proxy_next_upstream error timeout http_502 http_503 http_504;\n" ++
  "            proxy_intercept_errors on;\n" ++
  "            error_page 502 503 504 =503 /fallback_" ++ toString host_port ++ ";\n" ++
  "        \x7d\n" ++
  "\n" ++
  "        location = /fallback_" ++ toString host_port ++ " \x7b\n" ++
  "            default_type text/plain;\n" ++
  "            return 503 \x27Service temporarily unavailable - container " ++ target ++
    " is not running\x27;\n" ++
  "        \x7d\n" ++
  "    \x7d\n"

/-- The body of the `for route in routes` loop: resolve the target among the
container entries; an unresolved target is skipped (`continue`). -/
def route_server (containers : List ContainerEntry) (route : Route) : Option String :=
  match containers.find? (fun c => c.name == route.target) with
  | none => none
  | some target_container =>
    some (server_block route.host_port route.target
      (get_internal_port (some target_container)))

/-- The `servers` list accumulated by `generate_nginx_config`. -/
def nginx_servers (config : Model) : List String :=
  config.routes.filterMap (route_server config.containers)

/-- `generate_nginx_config`, verbatim. -/
def generate_nginx_config (config : Model) : String :=
  "events \x7b\x7d\n\nhttp \x7b\n    resolver 127.0.0.11 valid=30s;\n" ++
  String.intercalate "\n" (nginx_servers config) ++
  "\n\x7d\n "

/-- `build_proxy`: fails early when no containers are configured, otherwise
generates the config and builds the image (success given by `build_ok`). -/
def build_proxy (build_ok : Bool) (config : Model) (rt : Runtime) : StepResult :=
  if config.containers.isEmpty then ⟨false, config, rt, []⟩
  else
    let nginx_conf := generate_nginx_config config
    let proxy_image := get_proxy_image config
    if build_ok then
      ⟨true, config, { rt with images := rt.images ++ [(proxy_image, nginx_conf)] },
        [Event.buildImage proxy_image]⟩
    else ⟨false, config, rt, []⟩

/-- `start_proxy`.  Note the order of the source: the containers/routes
checks come first, then the network-ensuring loop, and only then the
already-running early return. -/
def start_proxy (build_ok : Bool) (config : Model) (rt : Runtime) : StepResult :=
  if config.containers.isEmpty then ⟨false, config, rt, []⟩
  else if config.routes.isEmpty then ⟨false, config, rt, []⟩
  else
    let networks := proxy_networks config
    let en := ensure_networks networks rt
    if get_proxy_name config ∈ en.1.containers then
      ⟨true, config, en.1, en.2⟩
    else
      let b := build_proxy build_ok config en.1
      if b.ok then
        let rt2 := { b.rt with containers := b.rt.containers ++ [get_proxy_name config] }
        let connects := (networks.filter (fun n => n != get_network_name config)).map
          Event.connectNetwork
        ⟨true, config, rt2,
          en.2 ++ b.events ++ [Event.runContainer (get_proxy_name config)] ++ connects⟩
      else ⟨false, config, b.rt, en.2 ++ b.events⟩

/-- `stop_proxy`: stop and remove the proxy container if it exists,
report not-running (`False`) otherwise. -/
def stop_proxy (config : Model) (rt : Runtime) : StepResult :=
  let proxy_name := get_proxy_name config
  if proxy_name ∈ rt.containers then
    ⟨true, config, { rt with containers := rt.containers.filter (fun c => c != proxy_name) },
      [Event.stopContainer proxy_name, Event.removeContainer proxy_name]⟩
  else ⟨false, config, rt, []⟩

/-- `reload_proxy`: fail fast unless the model has containers and routes,
then stop, sleep, start. -/
def reload_proxy (build_ok : Bool) (config : Model) (rt : Runtime) : StepResult :=
  if config.containers.isEmpty then ⟨false, config, rt, []⟩
  else if config.routes.isEmpty then ⟨false, config, rt, []⟩
  else
    let s := stop_proxy config rt
    let st := start_proxy build_ok config s.rt
    ⟨st.ok, config, st.rt, s.events ++ [Event.settle] ++ st.events⟩

/-- The `restart` command of `main`: `stop_proxy(); time.sleep(1); start_proxy()`. -/
def restart_proxy (build_ok : Bool) (config : Model) (rt : Runtime) : StepResult :=
  let s := stop_proxy config rt
  let st := start_proxy build_ok config s.rt
  ⟨st.ok, config, st.rt, s.events ++ [Event.settle] ++ st.events⟩

/-- `stop_port`: remove the route for the port (error if absent), persist,
then reload if routes remain, else stop the proxy entirely. -/
def stop_port (build_ok : Bool) (config : Model) (host_port : Nat) (rt : Runtime) :
    StepResult :=
  match find_route config host_port with
  | none => ⟨false, config, rt, []⟩
  | some _ =>
    let config' :=
      { config with routes := config.routes.filter (fun r => r.host_port != host_port) }
    if config'.routes.isEmpty then
      let s := stop_proxy config' rt
      ⟨s.ok, config', s.rt, Event.saveConfig config' :: s.events⟩
    else
      let r := reload_proxy build_ok config' rt
      ⟨r.ok, config', r.rt, Event.saveConfig config' :: r.events⟩

/-- In-place retargeting of the first route with the given host port
(`existing_route["target"] = container["name"]`). -/
def retarget (routes : List Route) (host_port : Nat) (target : String) : List Route :=
  match routes with
  | [] => []
  | r :: rest =>
    if r.host_port == host_port then { r with target := target } :: rest
    else r :: retarget rest host_port target

/-- The comparison key of `config["routes"].sort(key=lambda r: r["host_port"])`. -/
def route_le (a b : Route) : Bool :=
  decide (a.host_port ≤ b.host_port)

/-- The model transformation performed by a `switch_target` call: retarget the
existing route for the port in place, or append a new route and re-sort. -/
def switch_target_model (config : Model) (identifier : String) (host_port? : Option Nat) :
    Model :=
  match find_container config identifier with
  | none => config
  | some container =>
    match find_route config (host_port?.getD DEFAULT_PORT) with
    | some _ =>
      { config with
        routes := retarget config.routes (host_port?.getD DEFAULT_PORT) container.name }
    | none =>
      { config with
        routes := (config.routes ++
          [Route.mk (host_port?.getD DEFAULT_PORT) container.name]).mergeSort route_le }

/-- `switch_target`: resolve the identifier (error if absent), mutate the
routes, persist, then reload. -/
def switch_target (build_ok : Bool) (config : Model) (identifier : String)
    (host_port? : Option Nat) (rt : Runtime) : StepResult :=
  match find_container config identifier with
  | none => ⟨false, config, rt, []⟩
  | some _ =>
    let config' := switch_target_model config identifier host_port?
    let r := reload_proxy build_ok config' rt
    ⟨r.ok, config', r.rt, Event.saveConfig config' :: r.events⟩

/-- `remove_container`: resolve the identifier (error if absent), drop the
entry and every route targeting its name, persist.  No reconciliation. -/
def remove_container (config : Model) (identifier : String) (rt : Runtime) : StepResult :=
  match find_container config identifier with
  | none => ⟨false, config, rt, []⟩
  | some container =>
    let config' :=
      { config with
        containers := config.containers.filter (fun c => c.name != container.name),
        routes := config.routes.filter (fun r => r.target != container.name) }
    ⟨true, config', rt, [Event.saveConfig config']⟩

/-- Python truthiness of an optional string (`if label:`). -/
def truthy_str : Option String → Bool
  | some s => s != ""
  | none => false

/-- Python truthiness of an optional int (`if port:`). -/
def truthy_nat : Option Nat → Bool
  | some n => n != 0
  | none => false

/-- In-place update of the first container entry with the given name. -/
def update_container (cs : List ContainerEntry) (container_name : String)
    (f : ContainerEntry → ContainerEntry) : List ContainerEntry :=
  match cs with
  | [] => []
  | c :: rest =>
    if c.name == container_name then f c :: rest
    else c :: update_container rest container_name f

/-- The network-argument resolution at the top of `add_container`: when no
network was passed (`network is None`), a truthy auto-detected network
replaces it. -/
def effective_network (network0 detected_network : Option String) : Option String :=
  match network0 with
  | none => if truthy_str detected_network then detected_network else none
  | some n => some n

/-- `add_container`: upsert by name.  `detected_network` stands for the result
of `get_container_network` (a runtime query, external input here); it is
consulted only when no network was passed explicitly. -/
def add_container (config : Model) (container_name : String) (label : Option String)
    (port : Option Nat) (network0 : Option String) (detected_network : Option String) :
    Model :=
  match config.containers.find? (fun c => c.name == container_name) with
  | some _ =>
    { config with
      containers := update_container config.containers container_name (fun c =>
        { c with
          label := if truthy_str label then label else c.label,
          port := if truthy_nat port then port else c.port,
          network := if truthy_str (effective_network network0 detected_network) then
            effective_network network0 detected_network else c.network }) }
  | none =>
    { config with
      containers := config.containers ++
        [{ name := container_name,
           label := if truthy_str label then label else none,
           port := if truthy_nat port then port else none,
           network := if truthy_str (effective_network network0 detected_network) then
             effective_network network0 detected_network else none }] }

/-- Host-port uniqueness of a route list. -/
def ports_nodup (routes : List Route) : Prop :=
  (routes.map Route.host_port).Nodup

/-- Ascending sortedness of a route list by host port. -/
def routes_sorted (routes : List Route) : Prop :=
  routes.Pairwise (fun a b => a.host_port ≤ b.host_port)

/-- A route's target resolves to a configured container entry. -/
def route_resolves (config : Model) (r : Route) : Bool :=
  config.containers.any (fun c => c.name == r.target)

/-- A sequence of `switch_target` registry mutations, applied left to right. -/
def applySwitches (config : Model) (calls : List (String × Option Nat)) : Model :=
  calls.foldl (fun m c => switch_target_model m c.1 c.2) config

/-- The container name installed by the most recent effective switch call for
the given host port: a call is effective when its identifier resolves among
`config`'s containers (which `switch_target` never modifies) and its
defaulted port equals `host_port`. -/
def lastSwitched (config : Model) (host_port : Nat) :
    List (String × Option Nat) → Option String
  | [] => none
  | c :: rest =>
    match lastSwitched config host_port rest with
    | some n => some n
    | none =>
      if c.2.getD DEFAULT_PORT == host_port then
        match find_container config c.1 with
        | some container => some container.name
        | none => none
      else none

example : get_internal_port (some ⟨"c1", none, some 9000, none⟩) = 9000 := by decide

example : get_internal_port (some ⟨"c1", none, none, none⟩) = 8000 := by decide

/-! ### Helper lemmas about route lists -/

lemma find?_eq_some_of_ports_nodup {rs : List Route} {r : Route}
    (h : ports_nodup rs) (hm : r ∈ rs) :
    rs.find? (fun x => x.host_port == r.host_port) = some r := by
  induction rs with
  | nil => cases hm
  | cons a rest ih =>
    have h' : (a.host_port :: rest.map Route.host_port).Nodup := by
      simpa [ports_nodup] using h
    rcases List.mem_cons.mp hm with rfl | hm'
    · exact List.find?_cons_of_pos _ (by simp)
    · have hne : a.host_port ≠ r.host_port := by
        intro he
        exact (List.nodup_cons.mp h').1 (he ▸ List.mem_map_of_mem Route.host_port hm')
      rw [List.find?_cons_of_neg _ (by simp [hne])]
      exact ih (by simpa [ports_nodup] using (List.nodup_cons.mp h').2) hm'

lemma find?_route_eq_none {rs : List Route} {p : Nat} :
    rs.find? (fun x => x.host_port == p) = none ↔ ∀ r ∈ rs, r.host_port ≠ p := by
  simp [List.find?_eq_none]

lemma retarget_map_host_port (rs : List Route) (hp : Nat) (t : String) :
    (retarget rs hp t).map Route.host_port = rs.map Route.host_port := by
  induction rs with
  | nil => rfl
  | cons a rest ih =>
    by_cases ha : a.host_port = hp
    · simp [retarget, ha]
    · simp [retarget, ha, ih]

lemma retarget_find? {rs : List Route} {hp : Nat} {t : String} {r0 : Route}
    (h : rs.find? (fun r => r.host_port == hp) = some r0) :
    (retarget rs hp t).find? (fun r => r.host_port == hp) = some (Route.mk hp t) := by
  induction rs with
  | nil => simp at h
  | cons a rest ih =>
    by_cases ha : a.host_port = hp
    · obtain ⟨ap, at0⟩ := a
      simp only at ha
      subst ha
      rw [retarget, if_pos (by simp)]
      exact List.find?_cons_of_pos _ (by simp)
    · rw [retarget, if_neg (by simp [ha])]
      rw [List.find?_cons_of_neg _ (by simp [ha])]
      rw [List.find?_cons_of_neg _ (by simp [ha])] at h
      exact ih h

lemma retarget_find?_ne {rs : List Route} {hp p : Nat} {t : String} (hne : p ≠ hp) :
    (retarget rs hp t).find? (fun r => r.host_port == p) =
      rs.find? (fun r => r.host_port == p) := by
  induction rs with
  | nil => rfl
  | cons a rest ih =>
    by_cases ha : a.host_port = hp
    · rw [retarget, if_pos (by simp [ha])]
      rw [List.find?_cons_of_neg _ (by simp [ha]; omega),
        List.find?_cons_of_neg _ (by simp [ha]; omega)]
    · rw [retarget, if_neg (by simp [ha])]
      by_cases hap : a.host_port = p
      · rw [List.find?_cons_of_pos _ (by simp [hap]), List.find?_cons_of_pos _ (by simp [hap])]
      · rw [List.find?_cons_of_neg _ (by simp [hap]), List.find?_cons_of_neg _ (by simp [hap])]
        exact ih

lemma retarget_mem_of_find? {rs : List Route} {hp : Nat} {t : String} {r0 : Route}
    (h : rs.find? (fun r => r.host_port == hp) = some r0) :
    Route.mk hp t ∈ retarget rs hp t := by
  have := retarget_find? (t := t) h
  exact List.mem_of_find?_eq_some this

lemma filter_bne_eq_erase {rs : List Route} {r : Route}
    (h : ports_nodup rs) (hf : rs.find? (fun x => x.host_port == r.host_port) = some r) :
    rs.filter (fun x => x.host_port != r.host_port) = rs.erase r := by
  induction rs with
  | nil => simp at hf
  | cons a rest ih =>
    have h' : (a.host_port :: rest.map Route.host_port).Nodup := by
      simpa [ports_nodup] using h
    by_cases ha : a.host_port = r.host_port
    · have ha' : a = r := by
        have := List.find?_cons_of_pos (p := fun x => x.host_port == r.host_port) rest
          (a := a) (by simp [ha])
        rw [this] at hf
        exact (Option.some_injective _ hf)
      subst ha'
      rw [List.filter_cons_of_neg (by simp), List.erase_cons_head]
      apply List.filter_eq_self.mpr
      intro x hx
      have : x.host_port ∈ rest.map Route.host_port := List.mem_map_of_mem Route.host_port hx
      have hxa : x.host_port ≠ a.host_port := by
        intro he
        exact (List.nodup_cons.mp h').1 (he ▸ this)
      simp [hxa]
    · have har : a ≠ r := by intro he; exact ha (by rw [he])
      rw [List.filter_cons_of_pos (by simp [ha]), List.erase_cons_tail (by simp [har])]
      rw [List.find?_cons_of_neg _ (by simp [ha])] at hf
      exact congrArg (a :: ·) (ih (by simpa [ports_nodup] using (List.nodup_cons.mp h').2) hf)

lemma routes_sorted_map_iff (rs : List Route) :
    routes_sorted rs ↔ (rs.map Route.host_port).Pairwise (fun a b => a ≤ b) :=
  List.pairwise_map.symm

lemma routes_sorted_filter {rs : List Route} (p : Route → Bool) (h : routes_sorted rs) :
    routes_sorted (rs.filter p) :=
  List.Pairwise.sublist (List.filter_sublist rs) h

lemma routes_sorted_retarget {rs : List Route} (hp : Nat) (t : String)
    (h : routes_sorted rs) : routes_sorted (retarget rs hp t) := by
  rw [routes_sorted_map_iff, retarget_map_host_port]
  exact (routes_sorted_map_iff rs).mp h

lemma routes_sorted_mergeSort (l : List Route) : routes_sorted (l.mergeSort route_le) := by
  have h := @List.sorted_mergeSort Route route_le
    (by intro a b c hab hbc; simp only [route_le, decide_eq_true_eq] at *; omega)
    (by intro a b; simp only [route_le, Bool.or_eq_true, decide_eq_true_eq]; omega)
    l
  exact h.imp (by intro a b hab; simpa [route_le] using hab)

lemma ports_nodup_perm {rs rs' : List Route} (hp : rs.Perm rs') (h : ports_nodup rs) :
    ports_nodup rs' :=
  (hp.map Route.host_port).nodup h

lemma ports_nodup_retarget {rs : List Route} (hp : Nat) (t : String)
    (h : ports_nodup rs) : ports_nodup (retarget rs hp t) := by
  unfold ports_nodup
  rw [retarget_map_host_port]
  exact h

/-! ### Helper lemmas about `switch_target_model` -/

lemma switch_target_model_containers (m : Model) (i : String) (hp? : Option Nat) :
    (switch_target_model m i hp?).containers = m.containers := by
  unfold switch_target_model
  cases find_container m i with
  | none => rfl
  | some container =>
    cases find_route m (hp?.getD DEFAULT_PORT) with
    | none => rfl
    | some r => rfl

lemma switch_target_model_proxy_name (m : Model) (i : String) (hp? : Option Nat) :
    (switch_target_model m i hp?).proxy_name = m.proxy_name := by
  unfold switch_target_model
  cases find_container m i with
  | none => rfl
  | some container =>
    cases find_route m (hp?.getD DEFAULT_PORT) with
    | none => rfl
    | some r => rfl

lemma ports_nodup_switch_target_model (m : Model) (i : String) (hp? : Option Nat)
    (h : ports_nodup m.routes) : ports_nodup (switch_target_model m i hp?).routes := by
  unfold switch_target_model
  cases find_container m i with
  | none => exact h
  | some container =>
    rcases hr : find_route m (hp?.getD DEFAULT_PORT) with _ | r
    · simp only
      apply ports_nodup_perm (List.mergeSort_perm _ _).symm
      unfold ports_nodup
      rw [List.map_append]
      refine List.Nodup.append h (by simp) ?_
      intro p hp1 hp2
      simp only [List.map_cons, List.map_nil, List.mem_singleton] at hp2
      subst hp2
      rcases List.mem_map.mp hp1 with ⟨r, hr', heq⟩
      unfold find_route at hr
      exact (find?_route_eq_none.mp hr r hr') heq
    · simp only
      exact ports_nodup_retarget _ _ h

lemma switch_target_model_find_route (m : Model) (i : String) (hp? : Option Nat)
    {container : ContainerEntry} (h : ports_nodup m.routes)
    (hc : find_container m i = some container) :
    find_route (switch_target_model m i hp?) (hp?.getD DEFAULT_PORT) =
      some (Route.mk (hp?.getD DEFAULT_PORT) container.name) := by
  unfold switch_target_model
  rw [hc]
  rcases hr : find_route m (hp?.getD DEFAULT_PORT) with _ | r
  · simp only [find_route]
    have hmem : Route.mk (hp?.getD DEFAULT_PORT) container.name ∈
        (m.routes ++ [Route.mk (hp?.getD DEFAULT_PORT) container.name]).mergeSort route_le := by
      rw [List.mem_mergeSort]
      simp
    have hnd : ports_nodup ((m.routes ++ [Route.mk (hp?.getD DEFAULT_PORT) container.name]).mergeSort
        route_le) := by
      have := ports_nodup_switch_target_model m i hp? h
      unfold switch_target_model at this
      rw [hc, hr] at this
      exact this
    exact find?_eq_some_of_ports_nodup hnd hmem
  · simp only [find_route]
    exact retarget_find? hr

lemma switch_target_model_find_route_ne (m : Model) (i : String) (hp? : Option Nat)
    (p : Nat) (h : ports_nodup m.routes) (hne : hp?.getD DEFAULT_PORT ≠ p) :
    find_route (switch_target_model m i hp?) p = find_route m p := by
  unfold switch_target_model
  cases hc : find_container m i with
  | none => rfl
  | some container =>
    rcases hr : find_route m (hp?.getD DEFAULT_PORT) with _ | r
    · simp only [find_route]
      rcases hp : m.routes.find? (fun r => r.host_port == p) with _ | rp
      · rw [hp, find?_route_eq_none]
        intro x hx
        rcases List.mem_append.mp (List.mem_mergeSort.mp hx) with hx' | hx'
        · exact find?_route_eq_none.mp hp x hx'
        · simp only [List.mem_singleton] at hx'
          subst hx'
          simpa using hne
      · have hpp : rp.host_port = p := by
          simpa using List.find?_some hp
        have hmem : rp ∈ (m.routes ++ [Route.mk (hp?.getD DEFAULT_PORT) container.name]).mergeSort
            route_le := by
          rw [List.mem_mergeSort]
          exact List.mem_append_left _ (List.mem_of_find?_eq_some hp)
        have hnd : ports_nodup ((m.routes ++
            [Route.mk (hp?.getD DEFAULT_PORT) container.name]).mergeSort route_le) := by
          have := ports_nodup_switch_target_model m i hp? h
          unfold switch_target_model at this
          rw [hc, hr] at this
          exact this
        have := find?_eq_some_of_ports_nodup hnd hmem
        rw [hpp] at this
        rw [hp, this]
    · simp only [find_route]
      exact retarget_find?_ne (Ne.symm hne)

lemma switch_target_model_of_not_found {m : Model} {i : String} {hp? : Option Nat}
    (hc : find_container m i = none) : switch_target_model m i hp? = m := by
  unfold switch_target_model
  rw [hc]

lemma lastSwitched_congr {m m' : Model} (h : m'.containers = m.containers)
    (p : Nat) (calls : List (String × Option Nat)) :
    lastSwitched m' p calls = lastSwitched m p calls := by
  induction calls with
  | nil => rfl
  | cons c rest ih =>
    unfold lastSwitched
    rw [ih]
    have : find_container m' c.1 = find_container m c.1 := by
      unfold find_container
      rw [h]
    rw [this]

lemma applySwitches_cons (m : Model) (c : String × Option Nat)
    (rest : List (String × Option Nat)) :
    applySwitches m (c :: rest) = applySwitches (switch_target_model m c.1 c.2) rest := rfl

lemma applySwitches_find_route_of_none {p : Nat} :
    ∀ (calls : List (String × Option Nat)) (m : Model), ports_nodup m.routes →
      lastSwitched m p calls = none →
      find_route (applySwitches m calls) p = find_route m p := by
  intro calls
  induction calls with
  | nil =>
    intro m h hn
    rfl
  | cons c rest ih =>
    intro m h hn
    unfold lastSwitched at hn
    rcases hrest : lastSwitched m p rest with _ | n
    · rw [hrest] at hn
      simp only at hn
      have hcont := switch_target_model_containers m c.1 c.2
      have hnd' := ports_nodup_switch_target_model m c.1 c.2 h
      have hrest' : lastSwitched (switch_target_model m c.1 c.2) p rest = none := by
        rw [lastSwitched_congr hcont]
        exact hrest
      rw [applySwitches_cons, ih (switch_target_model m c.1 c.2) hnd' hrest']
      by_cases hpq : c.2.getD DEFAULT_PORT = p
      · rw [if_pos (by simp [hpq])] at hn
        rcases hc : find_container m c.1 with _ | ct
        · rw [switch_target_model_of_not_found hc]
        · rw [hc] at hn
          cases hn
      · exact switch_target_model_find_route_ne m c.1 c.2 p h hpq
    · rw [hrest] at hn
      cases hn

/-- C2: after any sequence of `switch_target` registry mutations starting from
a model whose routes are unique by host port, the routes remain unique by host
port, and for each host port that was effectively switched, the route on that
port targets the container named by the most recent effective `switch_target`
call for that port. -/
theorem c2_switch_route_uniqueness (m : Model) (calls : List (String × Option Nat))
    (h : ports_nodup m.routes) :
    ports_nodup (applySwitches m calls).routes ∧
    ∀ p n, lastSwitched m p calls = some n →
      ∃ r : Route, find_route (applySwitches m calls) p = some r ∧
        r.target = n ∧ r.host_port = p := by
  induction calls generalizing m with
  | nil =>
    refine ⟨h, ?_⟩
    intro p n hn
    cases hn
  | cons c rest ih =>
    have hcont := switch_target_model_containers m c.1 c.2
    have hnd' := ports_nodup_switch_target_model m c.1 c.2 h
    obtain ⟨ih1, ih2⟩ := ih (switch_target_model m c.1 c.2) hnd'
    refine ⟨by rw [applySwitches_cons]; exact ih1, ?_⟩
    intro p n hn
    unfold lastSwitched at hn
    rcases hrest : lastSwitched m p rest with _ | n'
    · rw [hrest] at hn
      simp only at hn
      by_cases hpq : c.2.getD DEFAULT_PORT = p
      · rw [if_pos (by simp [hpq])] at hn
        rcases hc : find_container m c.1 with _ | ct
        · rw [hc] at hn
          cases hn
        · rw [hc] at hn
          have hname : ct.name = n := Option.some.inj hn
          have hset := switch_target_model_find_route m c.1 c.2 h hc
          rw [hpq] at hset
          have hrest' : lastSwitched (switch_target_model m c.1 c.2) p rest = none := by
            rw [lastSwitched_congr hcont]
            exact hrest
          have hframe := applySwitches_find_route_of_none rest
            (switch_target_model m c.1 c.2) hnd' hrest'
          refine ⟨Route.mk p ct.name, ?_, hname, rfl⟩
          rw [applySwitches_cons, hframe, hset]
      · rw [if_neg (by simp [hpq])] at hn
        cases hn
    · rw [hrest] at hn
      have hnn : n' = n := Option.some.inj hn
      have hrest' : lastSwitched (switch_target_model m c.1 c.2) p rest = some n' := by
        rw [lastSwitched_congr hcont]
        exact hrest
      rw [applySwitches_cons]
      exact hnn ▸ ih2 p n' hrest'

theorem c2_switch_route_uniqueness_witness :
    ports_nodup (Model.mk [ContainerEntry.mk "c1" none none none,
      ContainerEntry.mk "c2" none none none] [] "proxy-manager" "proxy-net").routes ∧
    (ports_nodup (applySwitches (Model.mk [ContainerEntry.mk "c1" none none none,
        ContainerEntry.mk "c2" none none none] [] "proxy-manager" "proxy-net")
        [("c1", some 8000), ("c2", some 8000)]).routes ∧
      ∀ p n, lastSwitched (Model.mk [ContainerEntry.mk "c1" none none none,
          ContainerEntry.mk "c2" none none none] [] "proxy-manager" "proxy-net") p
          [("c1", some 8000), ("c2", some 8000)] = some n →
        ∃ r : Route, find_route (applySwitches (Model.mk
          [ContainerEntry.mk "c1" none none none, ContainerEntry.mk "c2" none none none]
          [] "proxy-manager" "proxy-net") [("c1", some 8000), ("c2", some 8000)]) p =
            some r ∧ r.target = n ∧ r.host_port = p) :=
  ⟨by simp [ports_nodup],
    c2_switch_route_uniqueness _ [("c1", some 8000), ("c2", some 8000)]
      (by simp [ports_nodup])⟩

example :
    (applySwitches (Model.mk [ContainerEntry.mk "c1" none none none,
      ContainerEntry.mk "c2" none none none] [] "proxy-manager" "proxy-net")
      [("c1", some 8000), ("c2", some 8000)]).routes = [Route.mk 8000 "c2"] := by
  simp [applySwitches, switch_target_model, find_container, find_route, retarget,
    DEFAULT_PORT]

lemma add_container_routes (m : Model) (cn : String) (lb : Option String)
    (pt : Option Nat) (nw dn : Option String) :
    (add_container m cn lb pt nw dn).routes = m.routes := by
  cases h : m.containers.find? (fun c => c.name == cn) with
  | none => simp [add_container, h]
  | some e => simp [add_container, h]

/-- C3: when the identifier resolves to a container entry, `remove_container`
succeeds, deletes every container entry with that name and every route whose
target is that name, keeps every other entry and route (and the rest of the
model), persists once, and touches no runtime state. -/
theorem c3_remove_container_cascade (m : Model) (rt : Runtime) (identifier : String)
    {container : ContainerEntry} (h : find_container m identifier = some container) :
    (remove_container m identifier rt).ok = true ∧
    (∀ e : ContainerEntry, e ∈ (remove_container m identifier rt).config.containers ↔
      e ∈ m.containers ∧ e.name ≠ container.name) ∧
    (∀ r : Route, r ∈ (remove_container m identifier rt).config.routes ↔
      r ∈ m.routes ∧ r.target ≠ container.name) ∧
    (remove_container m identifier rt).config.proxy_name = m.proxy_name ∧
    (remove_container m identifier rt).config.network = m.network ∧
    (remove_container m identifier rt).events =
      [Event.saveConfig (remove_container m identifier rt).config] ∧
    (remove_container m identifier rt).rt = rt := by
  unfold remove_container
  rw [h]
  refine ⟨rfl, ?_, ?_, rfl, rfl, rfl, rfl⟩
  · intro e
    simp [List.mem_filter]
  · intro r
    simp [List.mem_filter]

theorem c3_remove_container_cascade_witness :
    find_container (Model.mk [ContainerEntry.mk "c1" none none none,
      ContainerEntry.mk "c2" none none none] [Route.mk 8000 "c1", Route.mk 8001 "c2"]
      "proxy-manager" "proxy-net") "c1" = some (ContainerEntry.mk "c1" none none none) ∧
    (∀ r : Route, r ∈ (remove_container (Model.mk [ContainerEntry.mk "c1" none none none,
      ContainerEntry.mk "c2" none none none] [Route.mk 8000 "c1", Route.mk 8001 "c2"]
      "proxy-manager" "proxy-net") "c1" (Runtime.mk [] [] [])).config.routes ↔
      r ∈ [Route.mk 8000 "c1", Route.mk 8001 "c2"] ∧
        r.target ≠ (ContainerEntry.mk "c1" none none none).name) :=
  ⟨by decide,
    (c3_remove_container_cascade (Model.mk [ContainerEntry.mk "c1" none none none,
      ContainerEntry.mk "c2" none none none] [Route.mk 8000 "c1", Route.mk 8001 "c2"]
      "proxy-manager" "proxy-net") (Runtime.mk [] [] []) "c1" (by decide)).2.2.1⟩

/-- C4: starting from a model whose routes are sorted ascending by host port,
each single mutation — `switch_target` (registry part), `stop_port`,
`remove_container`, `add_container` — leaves the routes sorted ascending by
host port again. -/
theorem c4_routes_sorted_invariant (m : Model) (h : routes_sorted m.routes)
    (build_ok : Bool) (rt : Runtime) (identifier container_name : String)
    (label network0 detected_network : Option String) (port host_port? : Option Nat)
    (hp : Nat) :
    routes_sorted (switch_target build_ok m identifier host_port? rt).config.routes ∧
    routes_sorted (stop_port build_ok m hp rt).config.routes ∧
    routes_sorted (remove_container m identifier rt).config.routes ∧
    routes_sorted (add_container m container_name label port network0
      detected_network).routes := by
  refine ⟨?_, ?_, ?_, ?_⟩
  · unfold switch_target
    cases hc : find_container m identifier with
    | none => exact h
    | some container =>
      simp only
      unfold switch_target_model
      rw [hc]
      cases hr : find_route m (host_port?.getD DEFAULT_PORT) with
      | none =>
        simp only
        exact routes_sorted_mergeSort _
      | some r =>
        simp only
        exact routes_sorted_retarget _ _ h
  · unfold stop_port
    cases hr : find_route m hp with
    | none => exact h
    | some r =>
      simp only
      split
      · exact routes_sorted_filter _ h
      · exact routes_sorted_filter _ h
  · unfold remove_container
    cases hc : find_container m identifier with
    | none => exact h
    | some container =>
      exact routes_sorted_filter _ h
  · rw [add_container_routes]
    exact h

theorem c4_routes_sorted_invariant_witness :
    routes_sorted (Model.mk [ContainerEntry.mk "c1" none none none]
      [Route.mk 8000 "c1", Route.mk 8001 "c1"] "proxy-manager" "proxy-net").routes ∧
    routes_sorted (stop_port true (Model.mk [ContainerEntry.mk "c1" none none none]
      [Route.mk 8000 "c1", Route.mk 8001 "c1"] "proxy-manager" "proxy-net") 8000
      (Runtime.mk [] [] [])).config.routes :=
  ⟨by simp [routes_sorted],
    (c4_routes_sorted_invariant (Model.mk [ContainerEntry.mk "c1" none none none]
      [Route.mk 8000 "c1", Route.mk 8001 "c1"] "proxy-manager" "proxy-net")
      (by simp [routes_sorted]) true (Runtime.mk [] [] []) "c1" "c1" none none none
      none none 8000).2.1⟩

/-- C5: `start_proxy` on a model with no containers or no routes fails (the
ConfigIncomplete condition: the python function prints guidance and returns
`False`) and performs no runtime change at all: no network created, no image
built, no container created, state and trace untouched. -/
theorem c5_start_config_incomplete (build_ok : Bool) (m : Model) (rt : Runtime)
    (h : m.containers = [] ∨ m.routes = []) :
    start_proxy build_ok m rt = ⟨false, m, rt, []⟩ := by
  unfold start_proxy
  rcases h with h | h
  · rw [if_pos (by simp [h])]
  · by_cases hc : m.containers.isEmpty = true
    · rw [if_pos hc]
    · rw [if_neg hc, if_pos (by simp [h])]

theorem c5_start_config_incomplete_witness :
    ((DEFAULT_CONFIG.containers = [] ∨ DEFAULT_CONFIG.routes = []) ∧
      start_proxy true DEFAULT_CONFIG (Runtime.mk [] [] []) =
        ⟨false, DEFAULT_CONFIG, Runtime.mk [] [] [], []⟩) :=
  ⟨Or.inl rfl, c5_start_config_incomplete true DEFAULT_CONFIG (Runtime.mk [] [] [])
    (Or.inl rfl)⟩

/-- C9: on a model with at least one container and at least one route,
`reload_proxy` performs exactly the operation sequence of the `restart`
command (stop, settle, start) with identical results; on a model missing
containers or routes it fails fast with no effect. -/
theorem c9_reload_equals_restart (build_ok : Bool) (m : Model) (rt : Runtime) :
    (m.containers ≠ [] → m.routes ≠ [] →
      reload_proxy build_ok m rt = restart_proxy build_ok m rt) ∧
    (m.containers = [] ∨ m.routes = [] →
      reload_proxy build_ok m rt = ⟨false, m, rt, []⟩) := by
  constructor
  · intro h1 h2
    unfold reload_proxy restart_proxy
    rw [if_neg (by simp [h1]), if_neg (by simp [h2])]
  · intro h
    unfold reload_proxy
    rcases h with h | h
    · rw [if_pos (by simp [h])]
    · by_cases hc : m.containers.isEmpty = true
      · rw [if_pos hc]
      · rw [if_neg hc, if_pos (by simp [h])]

theorem c9_reload_equals_restart_witness :
    (reload_proxy true (Model.mk [ContainerEntry.mk "c1" none none none]
        [Route.mk 8000 "c1"] "proxy-manager" "proxy-net") (Runtime.mk [] [] []) =
      restart_proxy true (Model.mk [ContainerEntry.mk "c1" none none none]
        [Route.mk 8000 "c1"] "proxy-manager" "proxy-net") (Runtime.mk [] [] [])) ∧
    reload_proxy true DEFAULT_CONFIG (Runtime.mk [] [] []) =
      ⟨false, DEFAULT_CONFIG, Runtime.mk [] [] [], []⟩ :=
  ⟨(c9_reload_equals_restart true (Model.mk [ContainerEntry.mk "c1" none none none]
      [Route.mk 8000 "c1"] "proxy-manager" "proxy-net") (Runtime.mk [] [] [])).1
      (by decide) (by decide),
    (c9_reload_equals_restart true DEFAULT_CONFIG (Runtime.mk [] [] [])).2
      (Or.inl rfl)⟩

/-- C10: each failed registry mutation is atomic — `switch_target` with an
identifier matching no container, `remove_container` with an identifier
matching no container, and `stop_port` with a host port matching no route all
return failure, persist nothing, and leave model and runtime untouched. -/
theorem c10_failed_mutations_atomic (build_ok : Bool) (m : Model) (rt : Runtime)
    (identifier : String) (host_port? : Option Nat) (hp : Nat) :
    (find_container m identifier = none →
      switch_target build_ok m identifier host_port? rt = ⟨false, m, rt, []⟩ ∧
      remove_container m identifier rt = ⟨false, m, rt, []⟩) ∧
    (find_route m hp = none →
      stop_port build_ok m hp rt = ⟨false, m, rt, []⟩) := by
  constructor
  · intro h
    constructor
    · unfold switch_target
      rw [h]
    · unfold remove_container
      rw [h]
  · intro h
    unfold stop_port
    rw [h]

theorem c10_failed_mutations_atomic_witness :
    (find_container (Model.mk [ContainerEntry.mk "c1" none none none]
      [Route.mk 8000 "c1"] "proxy-manager" "proxy-net") "ghost" = none ∧
      switch_target true (Model.mk [ContainerEntry.mk "c1" none none none]
        [Route.mk 8000 "c1"] "proxy-manager" "proxy-net") "ghost" (some 9090)
        (Runtime.mk [] [] []) =
        ⟨false, Model.mk [ContainerEntry.mk "c1" none none none]
          [Route.mk 8000 "c1"] "proxy-manager" "proxy-net", Runtime.mk [] [] [], []⟩) ∧
    (find_route (Model.mk [ContainerEntry.mk "c1" none none none]
      [Route.mk 8000 "c1"] "proxy-manager" "proxy-net") 9090 = none ∧
      stop_port true (Model.mk [ContainerEntry.mk "c1" none none none]
        [Route.mk 8000 "c1"] "proxy-manager" "proxy-net") 9090 (Runtime.mk [] [] []) =
        ⟨false, Model.mk [ContainerEntry.mk "c1" none none none]
          [Route.mk 8000 "c1"] "proxy-manager" "proxy-net", Runtime.mk [] [] [], []⟩) :=
  ⟨⟨by decide,
    ((c10_failed_mutations_atomic true (Model.mk [ContainerEntry.mk "c1" none none none]
      [Route.mk 8000 "c1"] "proxy-manager" "proxy-net") (Runtime.mk [] [] []) "ghost"
      (some 9090) 9090).1 (by decide)).1⟩,
   ⟨by decide,
    (c10_failed_mutations_atomic true (Model.mk [ContainerEntry.mk "c1" none none none]
      [Route.mk 8000 "c1"] "proxy-manager" "proxy-net") (Runtime.mk [] [] []) "ghost"
      (some 9090) 9090).2 (by decide)⟩⟩

lemma filterMap_filter_eq_self {α β : Type} (f : α → Option β) (p : α → Bool)
    (l : List α) (h : ∀ a ∈ l, p a = false → f a = none) :
    (l.filter p).filterMap f = l.filterMap f := by
  induction l with
  | nil => rfl
  | cons a rest ih =>
    have ih' := ih (fun x hx hpx => h x (List.mem_cons_of_mem _ hx) hpx)
    by_cases hp : p a = true
    · rw [List.filter_cons_of_pos hp]
      simp only [List.filterMap_cons]
      rw [ih']
    · rw [List.filter_cons_of_neg (by simpa using hp)]
      rw [List.filterMap_cons, h a (List.mem_cons_self a rest) (by simpa using hp)]
      exact ih'

lemma route_server_eq_none_of_unresolved {m : Model} {r : Route}
    (h : route_resolves m r = false) : route_server m.containers r = none := by
  unfold route_server
  have : m.containers.find? (fun c => c.name == r.target) = none := by
    rw [List.find?_eq_none]
    intro c hc
    exact (List.any_eq_false.mp h) c hc
  rw [this]

/-- C6: config generation emits a server block only for routes whose target
resolves to a configured container entry — an unresolved route produces no
server block and contributes nothing to the generated text (and generation is
total, so it raises no error): dropping all unresolved routes leaves the
generated configuration unchanged. -/
theorem c6_stale_routes_dropped (m : Model) :
    (∀ r ∈ m.routes, route_resolves m r = false →
      route_server m.containers r = none) ∧
    generate_nginx_config
        { m with routes := m.routes.filter (fun r => route_resolves m r) } =
      generate_nginx_config m := by
  constructor
  · intro r _ h
    exact route_server_eq_none_of_unresolved h
  · unfold generate_nginx_config nginx_servers
    simp only
    rw [filterMap_filter_eq_self _ _ _
      (fun r _ hr => route_server_eq_none_of_unresolved hr)]

theorem c6_stale_routes_dropped_witness :
    (Route.mk 8001 "gone") ∈ (Model.mk [ContainerEntry.mk "c1" none (some 9000) none]
      [Route.mk 8000 "c1", Route.mk 8001 "gone"] "proxy-manager" "proxy-net").routes ∧
    route_resolves (Model.mk [ContainerEntry.mk "c1" none (some 9000) none]
      [Route.mk 8000 "c1", Route.mk 8001 "gone"] "proxy-manager" "proxy-net")
      (Route.mk 8001 "gone") = false ∧
    route_server (Model.mk [ContainerEntry.mk "c1" none (some 9000) none]
      [Route.mk 8000 "c1", Route.mk 8001 "gone"] "proxy-manager" "proxy-net").containers
      (Route.mk 8001 "gone") = none :=
  ⟨by decide, by decide,
    (c6_stale_routes_dropped (Model.mk [ContainerEntry.mk "c1" none (some 9000) none]
      [Route.mk 8000 "c1", Route.mk 8001 "gone"] "proxy-manager" "proxy-net")).1
      (Route.mk 8001 "gone") (by decide) (by decide)⟩

/-- C7: for the model with exactly container `c1` (internal port 9000) and
exactly the route `8000 -> c1`, the generator emits exactly one server block,
the one listening on 8000 and forwarding to `c1:9000`; and any resolved route
whose target container has no configured port is forwarded to the default
port 8000. -/
theorem c7_generate_scenario :
    nginx_servers (Model.mk [ContainerEntry.mk "c1" none (some 9000) none]
        [Route.mk 8000 "c1"] "proxy-manager" "proxy-net") =
      [server_block 8000 "c1" 9000] ∧
    ∀ (cs : List ContainerEntry) (r : Route) (tc : ContainerEntry),
      cs.find? (fun c => c.name == r.target) = some tc → tc.port = none →
      route_server cs r = some (server_block r.host_port r.target DEFAULT_PORT) := by
  constructor
  · rfl
  · intro cs r tc hf hp
    simp [route_server, hf, get_internal_port, hp]

theorem c7_generate_scenario_witness :
    ([ContainerEntry.mk "c2" none none none].find?
        (fun c => c.name == (Route.mk 8080 "c2").target) =
      some (ContainerEntry.mk "c2" none none none)) ∧
    (ContainerEntry.mk "c2" none none none).port = none ∧
    route_server [ContainerEntry.mk "c2" none none none] (Route.mk 8080 "c2") =
      some (server_block (Route.mk 8080 "c2").host_port (Route.mk 8080 "c2").target
        DEFAULT_PORT) :=
  ⟨by decide, rfl,
    c7_generate_scenario.2 [ContainerEntry.mk "c2" none none none] (Route.mk 8080 "c2")
      (ContainerEntry.mk "c2" none none none) (by decide) rfl⟩

/-! ### Helper lemmas about the runtime operations -/

lemma ensure_network_containers (n : String) (rt : Runtime) :
    (ensure_network n rt).1.containers = rt.containers := by
  unfold ensure_network
  split <;> rfl

lemma ensure_network_images (n : String) (rt : Runtime) :
    (ensure_network n rt).1.images = rt.images := by
  unfold ensure_network
  split <;> rfl

lemma ensure_network_networks_mono {x : String} (n : String) (rt : Runtime)
    (h : x ∈ rt.networks) : x ∈ (ensure_network n rt).1.networks := by
  unfold ensure_network
  split
  · exact h
  · exact List.mem_append_left _ h

lemma ensure_network_self_mem (n : String) (rt : Runtime) :
    n ∈ (ensure_network n rt).1.networks := by
  unfold ensure_network
  split
  · assumption
  · exact List.mem_append_right _ (List.mem_singleton.mpr rfl)

lemma ensure_networks_cons (n : String) (rest : List String) (rt : Runtime) :
    ensure_networks (n :: rest) rt =
      ((ensure_networks rest (ensure_network n rt).1).1,
        (ensure_network n rt).2 ++ (ensure_networks rest (ensure_network n rt).1).2) :=
  rfl

lemma ensure_networks_containers (ns : List String) (rt : Runtime) :
    (ensure_networks ns rt).1.containers = rt.containers := by
  induction ns generalizing rt with
  | nil => rfl
  | cons n rest ih =>
    rw [ensure_networks_cons]
    simp only
    rw [ih, ensure_network_containers]

lemma ensure_networks_images (ns : List String) (rt : Runtime) :
    (ensure_networks ns rt).1.images = rt.images := by
  induction ns generalizing rt with
  | nil => rfl
  | cons n rest ih =>
    rw [ensure_networks_cons]
    simp only
    rw [ih, ensure_network_images]

lemma ensure_networks_networks_mono {x : String} (ns : List String) (rt : Runtime)
    (h : x ∈ rt.networks) : x ∈ (ensure_networks ns rt).1.networks := by
  induction ns generalizing rt with
  | nil => exact h
  | cons n rest ih =>
    rw [ensure_networks_cons]
    exact ih _ (ensure_network_networks_mono n rt h)

lemma ensure_networks_mem {x : String} (ns : List String) (rt : Runtime)
    (h : x ∈ ns) : x ∈ (ensure_networks ns rt).1.networks := by
  induction ns generalizing rt with
  | nil => cases h
  | cons n rest ih =>
    rw [ensure_networks_cons]
    simp only
    rcases List.mem_cons.mp h with rfl | h'
    · exact ensure_networks_networks_mono _ _ (ensure_network_self_mem x rt)
    · exact ih _ h'

lemma ensure_networks_noop (ns : List String) (rt : Runtime)
    (h : ∀ n ∈ ns, n ∈ rt.networks) : ensure_networks ns rt = (rt, []) := by
  induction ns with
  | nil => rfl
  | cons n rest ih =>
    rw [ensure_networks_cons]
    have hn : ensure_network n rt = (rt, []) := by
      unfold ensure_network
      rw [if_pos (h n (List.mem_cons_self n rest))]
    rw [hn]
    simp only
    rw [ih (fun x hx => h x (List.mem_cons_of_mem _ hx))]
    rfl

lemma ensure_networks_events_create (ns : List String) (rt : Runtime) :
    ∀ e ∈ (ensure_networks ns rt).2, ∃ n, e = Event.createNetwork n := by
  induction ns generalizing rt with
  | nil => intro e he; cases he
  | cons n rest ih =>
    rw [ensure_networks_cons]
    intro e he
    rcases List.mem_append.mp he with he' | he'
    · unfold ensure_network at he'
      split at he'
      · cases he'
      · simp only [List.mem_singleton] at he'
        exact ⟨n, he'⟩
    · exact ih _ e he'

lemma stop_proxy_not_running (config : Model) (rt : Runtime) :
    get_proxy_name config ∉ (stop_proxy config rt).rt.containers := by
  unfold stop_proxy
  by_cases h : get_proxy_name config ∈ rt.containers
  · rw [if_pos h]
    simp [List.mem_filter]
  · rw [if_neg h]
    exact h

lemma build_proxy_rt_containers (build_ok : Bool) (config : Model) (rt : Runtime) :
    (build_proxy build_ok config rt).rt.containers = rt.containers := by
  unfold build_proxy
  split
  · rfl
  · split <;> rfl

lemma build_proxy_rt_networks (build_ok : Bool) (config : Model) (rt : Runtime) :
    (build_proxy build_ok config rt).rt.networks = rt.networks := by
  unfold build_proxy
  split
  · rfl
  · split <;> rfl

lemma start_proxy_already_running (build_ok : Bool) (m : Model) (rt : Runtime)
    (h1 : ¬m.containers.isEmpty = true) (h2 : ¬m.routes.isEmpty = true)
    (h3 : get_proxy_name m ∈ rt.containers) :
    start_proxy build_ok m rt =
      ⟨true, m, (ensure_networks (proxy_networks m) rt).1,
        (ensure_networks (proxy_networks m) rt).2⟩ := by
  unfold start_proxy
  rw [if_neg h1, if_neg h2]
  have h3' : get_proxy_name m ∈ (ensure_networks (proxy_networks m) rt).1.containers := by
    rw [ensure_networks_containers]
    exact h3
  rw [if_pos h3']

lemma start_proxy_post (build_ok : Bool) (m : Model) (rt : Runtime)
    (h : (start_proxy build_ok m rt).ok = true) :
    ¬m.containers.isEmpty = true ∧ ¬m.routes.isEmpty = true ∧
    get_proxy_name m ∈ (start_proxy build_ok m rt).rt.containers ∧
    ∀ n ∈ proxy_networks m, n ∈ (start_proxy build_ok m rt).rt.networks := by
  by_cases h1 : m.containers.isEmpty = true
  · unfold start_proxy at h
    rw [if_pos h1] at h
    cases h
  by_cases h2 : m.routes.isEmpty = true
  · unfold start_proxy at h
    rw [if_neg h1, if_pos h2] at h
    cases h
  unfold start_proxy at h ⊢
  rw [if_neg h1, if_neg h2] at h ⊢
  by_cases h3 : get_proxy_name m ∈ (ensure_networks (proxy_networks m) rt).1.containers
  · rw [if_pos h3] at h ⊢
    exact ⟨h1, h2, h3, fun n hn => ensure_networks_mem _ _ hn⟩
  · rw [if_neg h3] at h ⊢
    by_cases hb : (build_proxy build_ok m (ensure_networks (proxy_networks m) rt).1).ok = true
    · rw [if_pos hb] at h ⊢
      refine ⟨h1, h2, ?_, ?_⟩
      · simp only
        rw [build_proxy_rt_containers]
        exact List.mem_append_right _ (List.mem_singleton.mpr rfl)
      · intro n hn
        simp only
        rw [build_proxy_rt_networks]
        exact ensure_networks_mem _ _ hn
    · rw [if_neg hb] at h
      cases h

lemma start_proxy_noop (build_ok : Bool) (m : Model) (rt : Runtime)
    (h1 : ¬m.containers.isEmpty = true) (h2 : ¬m.routes.isEmpty = true)
    (h3 : get_proxy_name m ∈ rt.containers)
    (h4 : ∀ n ∈ proxy_networks m, n ∈ rt.networks) :
    start_proxy build_ok m rt = ⟨true, m, rt, []⟩ := by
  unfold start_proxy
  rw [if_neg h1, if_neg h2]
  simp only [ensure_networks_noop _ _ h4]
  rw [if_pos h3]

/-- C8 counterexample: a model meeting start's precondition that references
network `netX`, and a runtime where the proxy container already exists but
`netX` does not.  `start_proxy` returns success, yet it creates `netX` before
reaching the already-running early return — a runtime change, refuting the
claim that no runtime change occurs whenever the proxy already exists. -/
theorem c8_start_idempotent_counterexample :
    get_proxy_name (Model.mk [ContainerEntry.mk "c1" none none (some "netX")]
        [Route.mk 8000 "c1"] "proxy-manager" "proxy-net") ∈
      (Runtime.mk ["proxy-net"] ["proxy-manager"] []).containers ∧
    (start_proxy true (Model.mk [ContainerEntry.mk "c1" none none (some "netX")]
      [Route.mk 8000 "c1"] "proxy-manager" "proxy-net")
      (Runtime.mk ["proxy-net"] ["proxy-manager"] [])).ok = true ∧
    (start_proxy true (Model.mk [ContainerEntry.mk "c1" none none (some "netX")]
      [Route.mk 8000 "c1"] "proxy-manager" "proxy-net")
      (Runtime.mk ["proxy-net"] ["proxy-manager"] [])).events =
      [Event.createNetwork "netX"] ∧
    (start_proxy true (Model.mk [ContainerEntry.mk "c1" none none (some "netX")]
      [Route.mk 8000 "c1"] "proxy-manager" "proxy-net")
      (Runtime.mk ["proxy-net"] ["proxy-manager"] [])).rt ≠
      Runtime.mk ["proxy-net"] ["proxy-manager"] [] := by
  refine ⟨by decide, by decide, by decide, by decide⟩

/-- C8 (amended): when the proxy container already exists (and the model meets
start's precondition), `start_proxy` returns success without building an
image, creating a container, or changing the runtime's containers or images —
its only possible effects are creations of missing referenced networks, since
the network-ensuring loop precedes the existence check; and after any
successful `start_proxy`, a second call is a complete no-op: it succeeds and
makes no runtime change at all. -/
theorem c8_start_idempotent_amended (build_ok build_ok2 : Bool) (m : Model)
    (rt : Runtime) :
    (m.containers ≠ [] → m.routes ≠ [] → get_proxy_name m ∈ rt.containers →
      (start_proxy build_ok m rt).ok = true ∧
      (start_proxy build_ok m rt).rt.containers = rt.containers ∧
      (start_proxy build_ok m rt).rt.images = rt.images ∧
      ∀ e ∈ (start_proxy build_ok m rt).events, ∃ n, e = Event.createNetwork n) ∧
    ((start_proxy build_ok m rt).ok = true →
      start_proxy build_ok2 m (start_proxy build_ok m rt).rt =
        ⟨true, m, (start_proxy build_ok m rt).rt, []⟩) := by
  constructor
  · intro hc hr hmem
    have h1 : ¬m.containers.isEmpty = true := by simp [hc]
    have h2 : ¬m.routes.isEmpty = true := by simp [hr]
    rw [start_proxy_already_running build_ok m rt h1 h2 hmem]
    exact ⟨rfl, ensure_networks_containers _ _, ensure_networks_images _ _,
      ensure_networks_events_create _ _⟩
  · intro hok
    obtain ⟨h1, h2, h3, h4⟩ := start_proxy_post build_ok m rt hok
    exact start_proxy_noop build_ok2 m _ h1 h2 h3 h4

theorem c8_start_idempotent_amended_witness :
    ((Model.mk [ContainerEntry.mk "c1" none none (some "netX")]
        [Route.mk 8000 "c1"] "proxy-manager" "proxy-net").containers ≠ [] ∧
      (Model.mk [ContainerEntry.mk "c1" none none (some "netX")]
        [Route.mk 8000 "c1"] "proxy-manager" "proxy-net").routes ≠ [] ∧
      get_proxy_name (Model.mk [ContainerEntry.mk "c1" none none (some "netX")]
        [Route.mk 8000 "c1"] "proxy-manager" "proxy-net") ∈
        (Runtime.mk ["proxy-net"] ["proxy-manager"] []).containers) ∧
    (start_proxy true (Model.mk [ContainerEntry.mk "c1" none none (some "netX")]
      [Route.mk 8000 "c1"] "proxy-manager" "proxy-net")
      (Runtime.mk ["proxy-net"] ["proxy-manager"] [])).rt.containers =
      (Runtime.mk ["proxy-net"] ["proxy-manager"] []).containers ∧
    start_proxy false (Model.mk [ContainerEntry.mk "c1" none none (some "netX")]
        [Route.mk 8000 "c1"] "proxy-manager" "proxy-net")
      (start_proxy true (Model.mk [ContainerEntry.mk "c1" none none (some "netX")]
        [Route.mk 8000 "c1"] "proxy-manager" "proxy-net")
        (Runtime.mk ["proxy-net"] ["proxy-manager"] [])).rt =
      ⟨true, Model.mk [ContainerEntry.mk "c1" none none (some "netX")]
        [Route.mk 8000 "c1"] "proxy-manager" "proxy-net",
       (start_proxy true (Model.mk [ContainerEntry.mk "c1" none none (some "netX")]
        [Route.mk 8000 "c1"] "proxy-manager" "proxy-net")
        (Runtime.mk ["proxy-net"] ["proxy-manager"] [])).rt, []⟩ :=
  ⟨⟨by decide, by decide, by decide⟩,
    ((c8_start_idempotent_amended true false (Model.mk
      [ContainerEntry.mk "c1" none none (some "netX")] [Route.mk 8000 "c1"]
      "proxy-manager" "proxy-net") (Runtime.mk ["proxy-net"] ["proxy-manager"] [])).1
      (by decide) (by decide) (by decide)).2.1,
    (c8_start_idempotent_amended true false (Model.mk
      [ContainerEntry.mk "c1" none none (some "netX")] [Route.mk 8000 "c1"]
      "proxy-manager" "proxy-net") (Runtime.mk ["proxy-net"] ["proxy-manager"] [])).2
      (by decide)⟩

/-- C1: when a route with the given host port exists (and host ports are
unique), `stop_port` removes exactly that route from the model and persists
the result first; if at least one other route remains, the rest of the call
is exactly `reload_proxy` on the smaller model, and if no routes remain it is
exactly `stop_proxy` instead — after which no running proxy container
remains. -/
theorem c1_stop_port_removes_and_reconciles (build_ok : Bool) (m : Model) (hp : Nat)
    (rt : Runtime) {r : Route} (hnd : ports_nodup m.routes)
    (hr : find_route m hp = some r) :
    (stop_port build_ok m hp rt).config = { m with routes := m.routes.erase r } ∧
    (m.routes.erase r ≠ [] →
      stop_port build_ok m hp rt =
        ⟨(reload_proxy build_ok { m with routes := m.routes.erase r } rt).ok,
         { m with routes := m.routes.erase r },
         (reload_proxy build_ok { m with routes := m.routes.erase r } rt).rt,
         Event.saveConfig { m with routes := m.routes.erase r } ::
           (reload_proxy build_ok { m with routes := m.routes.erase r } rt).events⟩) ∧
    (m.routes.erase r = [] →
      stop_port build_ok m hp rt =
        ⟨(stop_proxy { m with routes := m.routes.erase r } rt).ok,
         { m with routes := m.routes.erase r },
         (stop_proxy { m with routes := m.routes.erase r } rt).rt,
         Event.saveConfig { m with routes := m.routes.erase r } ::
           (stop_proxy { m with routes := m.routes.erase r } rt).events⟩ ∧
      get_proxy_name m ∉ (stop_port build_ok m hp rt).rt.containers) := by
  have hhp : r.host_port = hp := by simpa using List.find?_some hr
  have hfe : m.routes.filter (fun x => x.host_port != hp) = m.routes.erase r := by
    subst hhp
    exact filter_bne_eq_erase hnd hr
  unfold stop_port
  rw [hr]
  simp only [hfe]
  refine ⟨?_, ?_, ?_⟩
  · split
    · rfl
    · rfl
  · intro hne
    rw [if_neg (by simpa using hne)]
  · intro he
    rw [if_pos (by simpa using he)]
    exact ⟨rfl, stop_proxy_not_running _ rt⟩

theorem c1_stop_port_removes_and_reconciles_witness :
    ports_nodup (Model.mk [ContainerEntry.mk "a" none none none,
      ContainerEntry.mk "b" none none none] [Route.mk 8000 "a", Route.mk 8001 "b"]
      "proxy-manager" "proxy-net").routes ∧
    find_route (Model.mk [ContainerEntry.mk "a" none none none,
      ContainerEntry.mk "b" none none none] [Route.mk 8000 "a", Route.mk 8001 "b"]
      "proxy-manager" "proxy-net") 8000 = some (Route.mk 8000 "a") ∧
    (stop_port true (Model.mk [ContainerEntry.mk "a" none none none,
      ContainerEntry.mk "b" none none none] [Route.mk 8000 "a", Route.mk 8001 "b"]
      "proxy-manager" "proxy-net") 8000 (Runtime.mk [] [] [])).config =
      { Model.mk [ContainerEntry.mk "a" none none none,
          ContainerEntry.mk "b" none none none] [Route.mk 8000 "a", Route.mk 8001 "b"]
          "proxy-manager" "proxy-net" with
        routes := [Route.mk 8000 "a", Route.mk 8001 "b"].erase (Route.mk 8000 "a") } :=
  ⟨by simp [ports_nodup], by decide,
    (c1_stop_port_removes_and_reconciles true (Model.mk
      [ContainerEntry.mk "a" none none none, ContainerEntry.mk "b" none none none]
      [Route.mk 8000 "a", Route.mk 8001 "b"] "proxy-manager" "proxy-net") 8000
      (Runtime.mk [] [] []) (by simp [ports_nodup]) (by decide)).1⟩
